import Mathlib

/-!
Shallow embedding of the Anthropic-to-OpenAI streaming protocol converter
(the converter module served through `src/server.ts`: `createConverterState`,
`processChunk`, `updateMetrics`, `createUsageChunk`, `transformToOpenAI`,
`convertNonStreamingResponse`), together with proofs about the translator.

Conventions of the embedding:
- optional JS fields become `Option` values; JS truthiness on strings is
  modelled explicitly (`""` and absent are both falsy);
- `Date.now()` is passed in as an explicit `now : Nat` parameter;
- the JS `Map<number, ToolCallTracker>` is an association list with
  `get`/`set` operations mirroring `Map.prototype`;
- token counters are `Nat` (the code only adds non-negative counts);
- console logging (`enableLogging`) is omitted, it produces no data flow.
-/

/-- JS truthiness of an optional string field: absent and `""` are falsy. -/
def truthyStr : Option String → Bool
  | some s => s ≠ ""
  | none => false

/-- JS `a || d` for an optional string `a`: the default is used when the
field is absent or empty. -/
def strOrElse (o : Option String) (d : String) : String :=
  match o with
  | some s => if s ≠ "" then s else d
  | none => d

/-- JS `a || d` where `a` is a plain string. -/
def strDefault (s d : String) : String := if s ≠ "" then s else d

/-- JS coercion of a possibly-`undefined` string in `+`/`+=` position:
`s + undefined` appends the literal text `undefined`. -/
def jsStrOfOpt : Option String → String
  | some s => s
  | none => "undefined"

/-- Minimal JSON value model, covering what `JSON.stringify` is applied to
(tool-call `input` values). -/
inductive Json where
  | null : Json
  | bool (b : Bool) : Json
  | num (n : Int) : Json
  | str (s : String) : Json
  | arr (elems : List Json) : Json
  | obj (fields : List (String × Json)) : Json

/-- Escaping applied by `JSON.stringify` inside string literals (the standard
short escapes; remaining characters are emitted unchanged). -/
def escapeJsonChar (c : Char) : String :=
  if c = '"' then "\\\""
  else if c = '\\' then "\\\\"
  else if c = '\n' then "\\n"
  else if c = '\t' then "\\t"
  else if c = '\r' then "\\r"
  else String.singleton c

/-- String-literal body escaping of `JSON.stringify`. -/
def escapeJsonString (s : String) : String :=
  String.join (s.data.map escapeJsonChar)

mutual

/-- `JSON.stringify` without spacing, as invoked on tool `input` values. -/
def jsonStringify : Json → String
  | .null => "null"
  | .bool true => "true"
  | .bool false => "false"
  | .num n => toString n
  | .str s => "\"" ++ escapeJsonString s ++ "\""
  | .arr xs => "[" ++ jsonStringifyList xs ++ "]"
  | .obj fs => "\x7b" ++ jsonStringifyFields fs ++ "\x7d"

/-- Comma-separated serialization of array elements. -/
def jsonStringifyList : List Json → String
  | [] => ""
  | [x] => jsonStringify x
  | x :: y :: rest => jsonStringify x ++ "," ++ jsonStringifyList (y :: rest)

/-- Comma-separated serialization of object fields. -/
def jsonStringifyFields : List (String × Json) → String
  | [] => ""
  | [(k, v)] => "\"" ++ escapeJsonString k ++ "\":" ++ jsonStringify v
  | (k, v) :: f :: rest =>
      "\"" ++ escapeJsonString k ++ "\":" ++ jsonStringify v ++ "," ++
        jsonStringifyFields (f :: rest)

end

/-- JS truthiness on JSON values: `null`, `false`, `0` and `""` are falsy. -/
def Json.falsy : Json → Bool
  | .null => true
  | .bool b => !b
  | .num n => n = 0
  | .str s => s = ""
  | .arr _ => false
  | .obj _ => false

/-- `block.input || {}` as evaluated on a JSON-valued optional field. -/
def inputOrEmptyObj : Option Json → Json
  | none => .obj []
  | some j => if j.falsy then .obj [] else j

/-- Usage counters as carried by upstream frames.  Every field is read
defensively by the converter (`|| 0`), so all are optional here. -/
structure Usage where
  input_tokens : Option Nat := none
  output_tokens : Option Nat := none
  cache_creation_input_tokens : Option Nat := none
  cache_read_input_tokens : Option Nat := none
  deriving DecidableEq

/-- The `message` payload of upstream frames (`AnthropicMessage`). -/
structure AnthropicMessage where
  id : String
  model : String := ""
  usage : Option Usage := none
  stop_reason : Option String := none
  deriving DecidableEq

/-- Content-block kind: the TS union `'text' | 'tool_use'`. -/
inductive BlockType where
  | text
  | tool_use
  deriving DecidableEq

/-- `AnthropicContentBlock`. -/
structure AnthropicContentBlock where
  type : BlockType
  id : Option String := none
  name : Option String := none
  text : Option String := none
  input : Option Json := none

/-- The `delta` payload of upstream frames.  The field `part_json` embeds the
upstream field named `partial_json`. -/
structure EventDelta where
  text : Option String := none
  part_json : Option String := none
  stop_reason : Option String := none
  deriving DecidableEq

/-- `AnthropicStreamEvent`: one decoded upstream frame. -/
structure AnthropicStreamEvent where
  type : String
  message : Option AnthropicMessage := none
  content_block : Option AnthropicContentBlock := none
  delta : Option EventDelta := none
  index : Option Nat := none
  model : Option String := none
  stop_reason : Option String := none
  usage : Option Usage := none

/-- The `function` part of a streamed tool-call delta. -/
structure FunctionDelta where
  name : Option String := none
  arguments : Option String := none
  deriving DecidableEq

/-- One entry of `delta.tool_calls` in an outgoing chunk. -/
structure ToolCallDelta where
  index : Nat
  id : Option String := none
  type : Option String := none
  function : Option FunctionDelta := none
  deriving DecidableEq

/-- The `delta` object of an outgoing chunk choice. -/
structure ChunkDelta where
  role : Option String := none
  content : Option String := none
  tool_calls : Option (List ToolCallDelta) := none
  deriving DecidableEq

/-- One element of `choices` in an outgoing chunk. -/
structure ChunkChoice where
  index : Nat
  delta : ChunkDelta
  finish_reason : Option String
  deriving DecidableEq

/-- The `usage` record of outgoing payloads. -/
structure OpenAIUsage where
  prompt_tokens : Nat
  completion_tokens : Nat
  total_tokens : Nat
  deriving DecidableEq

/-- `OpenAIStreamChunk`: one outgoing streamed chunk. -/
structure OpenAIStreamChunk where
  id : String
  object : String
  created : Nat
  model : String
  choices : List ChunkChoice
  usage : Option OpenAIUsage := none
  deriving DecidableEq

/-- The `function` part of a whole-response tool call. -/
structure OpenAIFunctionCall where
  name : String
  arguments : String
  deriving DecidableEq

/-- One entry of `message.tool_calls` in the whole response. -/
structure OpenAIToolCall where
  id : String
  type : String
  function : OpenAIFunctionCall
  deriving DecidableEq

/-- The `message` object of a whole-response choice. -/
structure OpenAIMessage where
  role : String
  content : Option String
  tool_calls : List OpenAIToolCall
  deriving DecidableEq

/-- One element of `choices` in the whole response. -/
structure ResponseChoice where
  index : Nat
  message : OpenAIMessage
  finish_reason : Option String
  deriving DecidableEq

/-- `OpenAIResponse`: the whole non-streaming client response. -/
structure OpenAIResponse where
  id : String
  object : String
  created : Nat
  model : String
  choices : List ResponseChoice
  usage : OpenAIUsage
  deriving DecidableEq

/-- A whole upstream response (`AnthropicResponse` / `AnthropicFullResponse`;
the union's weaker member makes every field optional). -/
structure AnthropicFullResponse where
  id : Option String := none
  model : Option String := none
  content : Option (List AnthropicContentBlock) := none
  stop_reason : Option String := none
  usage : Option Usage := none

/-- `ToolCallTracker`: per-tool-call accumulator. -/
structure ToolCallTracker where
  id : String
  name : String
  arguments : String
  deriving DecidableEq

/-- `MetricsData`: per-exchange metrics record. -/
structure MetricsData where
  model : String
  stop_reason : Option String
  input_tokens : Nat
  cache_creation_input_tokens : Nat
  cache_read_input_tokens : Nat
  output_tokens : Nat
  messageId : Option String
  openAIId : Option String
  deriving DecidableEq

/-- `ConverterState`: tool-call tracker table plus metrics. -/
structure ConverterState where
  toolCallsTracker : List (Nat × ToolCallTracker)
  metricsData : MetricsData
  deriving DecidableEq

/-- `ProcessResult`: an emitted chunk or the terminal signal. -/
inductive ProcessResult where
  | chunk (data : OpenAIStreamChunk)
  | done
  deriving DecidableEq

/-- `Map.prototype.get` on the tracker table. -/
def mapGet (m : List (Nat × ToolCallTracker)) (k : Nat) : Option ToolCallTracker :=
  match m with
  | [] => none
  | (k2, v) :: rest => if k2 = k then some v else mapGet rest k

/-- `Map.prototype.set` on the tracker table: replaces the entry at the key,
appending a fresh entry when absent. -/
def mapSet (m : List (Nat × ToolCallTracker)) (k : Nat) (v : ToolCallTracker) :
    List (Nat × ToolCallTracker) :=
  match m with
  | [] => [(k, v)]
  | (k2, v2) :: rest =>
      if k2 = k then (k, v) :: rest else (k2, v2) :: mapSet rest k v

/-- JS `s.replace(pat, '')` on lists of characters: removes the first
occurrence of `pat` (the converter only ever replaces with `''`). -/
def removeFirstOcc (pat : List Char) : List Char → List Char
  | [] => []
  | c :: rest =>
      if pat.isPrefixOf (c :: rest) then (c :: rest).drop pat.length
      else c :: removeFirstOcc pat rest

/-- JS `s.replace(pat, '')` on strings. -/
def jsReplaceEmpty (s pat : String) : String :=
  String.mk (removeFirstOcc pat.data s.data)

/-- `createConverterState`. -/
def createConverterState : ConverterState :=
  { toolCallsTracker := []
    metricsData := {
      model := ""
      stop_reason := none
      input_tokens := 0
      cache_creation_input_tokens := 0
      cache_read_input_tokens := 0
      output_tokens := 0
      messageId := none
      openAIId := none } }

/-- The value `usage?.field || 0` for an optional usage record. -/
def usageField (u : Option Usage) (f : Usage → Option Nat) : Nat :=
  match u with
  | some x => (f x).getD 0
  | none => 0

/-- `updateMetrics`, statement 1: the `message_start` id/model bookkeeping. -/
def umMessageStart (m : MetricsData) (data : AnthropicStreamEvent) : MetricsData :=
  match data.message with
  | some msg =>
      if data.type = "message_start" then
        let m2 := { m with messageId := some msg.id }
        if msg.model ≠ "" then { m2 with model := msg.model } else m2
      else m
  | none => m

/-- `updateMetrics`, statement 2: `if (data.model)`. -/
def umModel (m : MetricsData) (data : AnthropicStreamEvent) : MetricsData :=
  match data.model with
  | some s => if s ≠ "" then { m with model := s } else m
  | none => m

/-- `updateMetrics`, statement 3: `if (data.stop_reason)`. -/
def umStopReason (m : MetricsData) (data : AnthropicStreamEvent) : MetricsData :=
  match data.stop_reason with
  | some s => if s ≠ "" then { m with stop_reason := some s } else m
  | none => m

/-- `updateMetrics`, statement 4: the `message_delta` stop reason. -/
def umDeltaStopReason (m : MetricsData) (data : AnthropicStreamEvent) :
    MetricsData :=
  if data.type = "message_delta" then
    match data.delta with
    | some d =>
        match d.stop_reason with
        | some s => if s ≠ "" then { m with stop_reason := some s } else m
        | none => m
    | none => m
  else m

/-- `updateMetrics`, statement 5: additive absorption of `data.usage`. -/
def umUsage (m : MetricsData) (data : AnthropicStreamEvent) : MetricsData :=
  match data.usage with
  | some u =>
      { m with
        input_tokens := m.input_tokens + u.input_tokens.getD 0
        output_tokens := m.output_tokens + u.output_tokens.getD 0
        cache_creation_input_tokens :=
          m.cache_creation_input_tokens + u.cache_creation_input_tokens.getD 0
        cache_read_input_tokens :=
          m.cache_read_input_tokens + u.cache_read_input_tokens.getD 0 }
  | none => m

/-- `updateMetrics`, statement 6: additive absorption of
`data.message.usage`, with the model refresh guarding it. -/
def umMessageUsage (m : MetricsData) (data : AnthropicStreamEvent) :
    MetricsData :=
  match data.message with
  | some msg =>
      match msg.usage with
      | some u =>
          let m2 := if msg.model ≠ "" then { m with model := msg.model } else m
          { m2 with
            input_tokens := m2.input_tokens + u.input_tokens.getD 0
            output_tokens := m2.output_tokens + u.output_tokens.getD 0
            cache_creation_input_tokens :=
              m2.cache_creation_input_tokens + u.cache_creation_input_tokens.getD 0
            cache_read_input_tokens :=
              m2.cache_read_input_tokens + u.cache_read_input_tokens.getD 0 }
      | none => m
  | none => m

/-- `updateMetrics`, statement 7: `if (data.message?.stop_reason)`. -/
def umMessageStopReason (m : MetricsData) (data : AnthropicStreamEvent) :
    MetricsData :=
  match data.message with
  | some msg =>
      match msg.stop_reason with
      | some s => if s ≠ "" then { m with stop_reason := some s } else m
      | none => m
  | none => m

/-- `updateMetrics`: the seven conditional mutations, in source order. -/
def updateMetrics (metricsData : MetricsData) (data : AnthropicStreamEvent) :
    MetricsData :=
  umMessageStopReason
    (umMessageUsage
      (umUsage
        (umDeltaStopReason
          (umStopReason
            (umModel
              (umMessageStart metricsData data) data) data) data) data) data) data

/-- The fragment-vs-snapshot delta resolution step (the body of the
`partial_json` branch of `transformToOpenAI`): given the accumulated buffer
`b` and the incoming fragment `f`, returns the emitted suffix and the new
buffer.  The prefix test is JS `f.startsWith(b)` and the suffix is JS
`f.substring(b.length)`. -/
def resolveDelta (b f : String) : String × String :=
  if b ≠ "" ∧ b.data.isPrefixOf f.data then
    (String.mk (f.data.drop b.length), f)
  else
    (f, b ++ f)

/-- `createUsageChunk`. -/
def createUsageChunk (state : ConverterState) (now : Nat) :
    Option OpenAIStreamChunk :=
  if state.metricsData.input_tokens = 0 ∧ state.metricsData.output_tokens = 0 then
    none
  else
    some {
      id := strOrElse state.metricsData.openAIId ("chatcmpl-" ++ toString now)
      object := "chat.completion.chunk"
      created := now / 1000
      model := strDefault state.metricsData.model "claude-unknown"
      choices := [{ index := 0, delta := {}, finish_reason := none }]
      usage := some {
        prompt_tokens := state.metricsData.input_tokens
        completion_tokens := state.metricsData.output_tokens
        total_tokens :=
          state.metricsData.input_tokens + state.metricsData.output_tokens } }

/-- `transformToOpenAI`: the event-kind dispatch.  Returns the emitted chunk
(if any) and the updated state; `now` stands for `Date.now()`. -/
def transformToOpenAI (state : ConverterState) (data : AnthropicStreamEvent)
    (now : Nat) : Option OpenAIStreamChunk × ConverterState :=
  if data.type = "message_start" then
    match data.message with
    | some msg =>
        let openAIId := "chatcmpl-" ++ jsReplaceEmpty msg.id "msg_"
        let st := { state with
          metricsData := { state.metricsData with openAIId := some openAIId } }
        (some {
          id := openAIId
          object := "chat.completion.chunk"
          created := now / 1000
          model := msg.model
          choices := [{
            index := 0
            delta := { role := some "assistant", content := some "" }
            finish_reason := none }] }, st)
    | none => (none, state)
  else if data.type = "content_block_start" then
    match data.content_block with
    | some cb =>
        if cb.type = BlockType.tool_use then
          let idx := data.index.getD 0
          let tracker := mapSet state.toolCallsTracker idx
            { id := cb.id.getD "", name := cb.name.getD "", arguments := "" }
          let st := { state with toolCallsTracker := tracker }
          (some {
            id := strOrElse state.metricsData.openAIId ("chatcmpl-" ++ toString now)
            object := "chat.completion.chunk"
            created := now / 1000
            model := strDefault state.metricsData.model "claude-unknown"
            choices := [{
              index := 0
              delta := { tool_calls := some [{
                index := idx
                id := cb.id
                type := some "function"
                function := some { name := cb.name, arguments := some "" } }] }
              finish_reason := none }] }, st)
        else (none, state)
    | none => (none, state)
  else if data.type = "content_block_delta" then
    match data.delta with
    | some d =>
        if truthyStr d.part_json then
          let idx := data.index.getD 0
          match mapGet state.toolCallsTracker idx with
          | some toolCall =>
              let r := resolveDelta toolCall.arguments (d.part_json.getD "")
              let tracker := mapSet state.toolCallsTracker idx
                { toolCall with arguments := r.2 }
              let st := { state with toolCallsTracker := tracker }
              (some {
                id := strOrElse state.metricsData.openAIId
                  ("chatcmpl-" ++ toString now)
                object := "chat.completion.chunk"
                created := now / 1000
                model := strDefault state.metricsData.model "claude-unknown"
                choices := [{
                  index := 0
                  delta := { tool_calls := some [{
                    index := idx
                    function := some { arguments := some r.1 } }] }
                  finish_reason := none }] }, st)
          | none => (none, state)
        else if truthyStr d.text then
          (some {
            id := strOrElse state.metricsData.openAIId ("chatcmpl-" ++ toString now)
            object := "chat.completion.chunk"
            created := now / 1000
            model := strDefault state.metricsData.model "claude-unknown"
            choices := [{
              index := 0
              delta := { content := some (d.text.getD "") }
              finish_reason := none }] }, state)
        else (none, state)
    | none => (none, state)
  else if data.type = "message_delta" then
    match data.delta with
    | some d =>
        match d.stop_reason with
        | some s =>
            if s ≠ "" then
              (some {
                id := strOrElse state.metricsData.openAIId
                  ("chatcmpl-" ++ toString now)
                object := "chat.completion.chunk"
                created := now / 1000
                model := strDefault state.metricsData.model "claude-unknown"
                choices := [{
                  index := 0
                  delta := {}
                  finish_reason := some (
                    if s = "end_turn" then "stop"
                    else if s = "tool_use" then "tool_calls"
                    else s) }] }, state)
            else (none, state)
        | none => (none, state)
    | none => (none, state)
  else (none, state)

/-- Whether `data.content_block?.type === 'text'`. -/
def blockTypeIs (cb : Option AnthropicContentBlock) (t : BlockType) : Bool :=
  match cb with
  | some b => b.type = t
  | none => false

/-- The per-decoded-frame body of `processChunk`: the explicit skips, the
metrics side effect, the dispatch, and the end-of-message usage chunk and
terminal signal.  SSE line splitting and JSON decoding happen before this
point (lines that fail to decode never reach it). -/
def processEvent (state : ConverterState) (data : AnthropicStreamEvent)
    (now : Nat) : List ProcessResult × ConverterState :=
  if data.type = "ping" ∨ data.type = "content_block_stop" then ([], state)
  else if data.type = "content_block_start" ∧
      blockTypeIs data.content_block BlockType.text then ([], state)
  else
    let st1 := { state with metricsData := updateMetrics state.metricsData data }
    let r := transformToOpenAI st1 data now
    let base :=
      match r.1 with
      | some c => [ProcessResult.chunk c]
      | none => []
    if data.type = "message_stop" then
      let tail :=
        match createUsageChunk r.2 now with
        | some u => [ProcessResult.chunk u]
        | none => []
      (base ++ tail ++ [ProcessResult.done], r.2)
    else (base, r.2)

/-- `processChunk` over an already-decoded sequence of frames. -/
def processEvents (state : ConverterState) (events : List AnthropicStreamEvent)
    (now : Nat) : List ProcessResult × ConverterState :=
  match events with
  | [] => ([], state)
  | e :: rest =>
      let r := processEvent state e now
      let r2 := processEvents r.2 rest now
      (r.1 ++ r2.1, r2.2)

/-- One step of the content-block loop of `convertNonStreamingResponse`:
accumulates the concatenated text and the collected tool calls. -/
def snapshotStep (acc : String × List OpenAIToolCall)
    (block : AnthropicContentBlock) : String × List OpenAIToolCall :=
  if block.type = BlockType.text then
    (acc.1 ++ jsStrOfOpt block.text, acc.2)
  else if block.type = BlockType.tool_use ∧ truthyStr block.id ∧
      truthyStr block.name then
    (acc.1, acc.2 ++ [{
      id := block.id.getD ""
      type := "function"
      function := {
        name := block.name.getD ""
        arguments := jsonStringify (inputOrEmptyObj block.input) } }])
  else acc

/-- `convertNonStreamingResponse`; `now` stands for `Date.now()`. -/
def convertNonStreamingResponse (resp : AnthropicFullResponse) (now : Nat) :
    OpenAIResponse :=
  let finishReason : Option String :=
    match resp.stop_reason with
    | some s =>
        if s = "end_turn" then some "stop"
        else if s = "tool_use" then some "tool_calls"
        else if s ≠ "" then some s else none
    | none => none
  let folded := (resp.content.getD []).foldl snapshotStep ("", [])
  { id := "chatcmpl-" ++ jsReplaceEmpty (strOrElse resp.id (toString now)) "msg_"
    object := "chat.completion"
    created := now / 1000
    model := strOrElse resp.model "claude-unknown"
    choices := [{
      index := 0
      message := {
        role := "assistant"
        content := if folded.1 ≠ "" then some folded.1 else none
        tool_calls := folded.2 }
      finish_reason := finishReason }]
    usage := {
      prompt_tokens := usageField resp.usage Usage.input_tokens
      completion_tokens := usageField resp.usage Usage.output_tokens
      total_tokens := usageField resp.usage Usage.input_tokens +
        usageField resp.usage Usage.output_tokens } }

/-- The finish_reason of the first choice of an optionally emitted chunk;
`none` when no chunk was emitted. -/
def chunkFinishReason : Option OpenAIStreamChunk → Option String
  | some c =>
      match c.choices with
      | ch :: _ => ch.finish_reason
      | [] => none
  | none => none

/-- The message content of the first choice of a whole response. -/
def responseContent (r : OpenAIResponse) : Option String :=
  match r.choices with
  | c :: _ => c.message.content
  | [] => none

/-- The tool-call list of the first choice of a whole response. -/
def responseToolCalls (r : OpenAIResponse) : List OpenAIToolCall :=
  match r.choices with
  | c :: _ => c.message.tool_calls
  | [] => []

/-- The finish_reason of the first choice of a whole response. -/
def responseFinishReason (r : OpenAIResponse) : Option String :=
  match r.choices with
  | c :: _ => c.finish_reason
  | [] => none

/-- The tool-argument string carried by a chunk, when it carries one. -/
def chunkArgSuffix (c : OpenAIStreamChunk) : Option String :=
  match c.choices with
  | ch :: _ =>
      match ch.delta.tool_calls with
      | some (tc :: _) =>
          match tc.function with
          | some f => f.arguments
          | none => none
      | some [] => none
      | none => none
  | [] => none

/-- The tool-argument string of an optionally emitted chunk. -/
def emittedArgOf : Option OpenAIStreamChunk → Option String
  | some c => chunkArgSuffix c
  | none => none

/-- The tool-argument suffixes emitted to the client, in emission order. -/
def toolArgEmissions : List ProcessResult → List String
  | [] => []
  | ProcessResult.chunk c :: rest =>
      match chunkArgSuffix c with
      | some s => s :: toolArgEmissions rest
      | none => toolArgEmissions rest
  | ProcessResult.done :: rest => toolArgEmissions rest

/-- A `content_block_delta` frame carrying a tool-argument fragment. -/
def pjEvent (idx : Nat) (f : String) : AnthropicStreamEvent :=
  { type := "content_block_delta", index := some idx,
    delta := some { part_json := some f } }

/-- A `message_delta` frame carrying an optional stop reason. -/
def msgDeltaEvent (s : Option String) : AnthropicStreamEvent :=
  { type := "message_delta", delta := some { stop_reason := s } }

/-- Concatenation of a list of strings, in order. -/
def concatAll : List String → String
  | [] => ""
  | s :: rest => s ++ concatAll rest

/-- The input-token counts carried by one frame (top-level usage plus
message-level usage), as the additivity property sums them. -/
def eventInputContribution (ev : AnthropicStreamEvent) : Nat :=
  (match ev.usage with
   | some u => u.input_tokens.getD 0
   | none => 0) +
  (match ev.message with
   | some msg =>
       match msg.usage with
       | some u => u.input_tokens.getD 0
       | none => 0
   | none => 0)

/-- The output-token counts carried by one frame. -/
def eventOutputContribution (ev : AnthropicStreamEvent) : Nat :=
  (match ev.usage with
   | some u => u.output_tokens.getD 0
   | none => 0) +
  (match ev.message with
   | some msg =>
       match msg.usage with
       | some u => u.output_tokens.getD 0
       | none => 0
   | none => 0)

/-- Stated from the spec's words: the concatenation, in array order, of the
text of all text-kind content blocks. -/
def specTextConcat (blocks : List AnthropicContentBlock) : String :=
  concatAll ((blocks.filter (fun b => decide (b.type = BlockType.text))).map
    (fun b => jsStrOfOpt b.text))

/-- Stated from the spec's words, amended by JS truthiness: the tool_use-kind
blocks whose `id` and `name` are present and non-empty, in array order, each
with matching id/name, type `function`, and serialized input. -/
def specToolCalls (blocks : List AnthropicContentBlock) : List OpenAIToolCall :=
  (blocks.filter (fun b =>
    decide (b.type = BlockType.tool_use) && truthyStr b.id && truthyStr b.name)).map
    (fun b => {
      id := b.id.getD ""
      type := "function"
      function := {
        name := b.name.getD ""
        arguments := jsonStringify (inputOrEmptyObj b.input) } })

/-- A payload has exactly one choice and its index is 0. -/
def singleChoiceZero (choices : List ChunkChoice) : Prop :=
  choices.length = 1 ∧ ∀ ch ∈ choices, ch.index = 0

/-- The four token counters and the stop reason of a metrics record. -/
def countersOf (m : MetricsData) : Nat × Nat × Nat × Nat × Option String :=
  (m.input_tokens, m.output_tokens, m.cache_creation_input_tokens,
   m.cache_read_input_tokens, m.stop_reason)

/-- The state `processChunk` uses between the metrics update and dispatch. -/
def afterMetrics (state : ConverterState) (data : AnthropicStreamEvent) :
    ConverterState :=
  { state with metricsData := updateMetrics state.metricsData data }

/-- A `ping` frame that nevertheless carries usage counters. -/
def pingUsageEvent : AnthropicStreamEvent :=
  { type := "ping",
    usage := some { input_tokens := some 5, output_tokens := some 7 } }

/-- A `message_stop` frame whose usage carries only cache counters. -/
def cacheOnlyStopEvent : AnthropicStreamEvent :=
  { type := "message_stop",
    usage := some { cache_creation_input_tokens := some 5 } }

/-- A `message_delta` frame carrying a stop reason and usage. -/
def msgDeltaUsageEvent : AnthropicStreamEvent :=
  { type := "message_delta",
    delta := some { stop_reason := some "end_turn" },
    usage := some { output_tokens := some 3 } }

/-- A `message_start` frame. -/
def msgStartEvent : AnthropicStreamEvent :=
  { type := "message_start",
    message := some { id := "msg_1", model := "claude-3" } }

/-- A converter state holding one freshly created tool-call accumulator. -/
def toolStartState : ConverterState :=
  { createConverterState with
    toolCallsTracker := [(0, { id := "t1", name := "lookup", arguments := "" })] }

/-- A converter state whose accumulator 0 has already buffered `"ab"`. -/
def bufferedState : ConverterState :=
  { createConverterState with
    toolCallsTracker := [(0, { id := "t1", name := "lookup", arguments := "ab" })] }

/-- An upstream response holding one text block whose text is empty. -/
def emptyTextResponse : AnthropicFullResponse :=
  { content := some [{ type := BlockType.text, text := some "" }] }

/-- An upstream response holding one tool block whose id is present but
empty. -/
def emptyIdToolResponse : AnthropicFullResponse :=
  { content := some [{
      type := BlockType.tool_use
      id := some ""
      name := some "lookup"
      input := some (Json.obj [("q", Json.str "x")]) }] }

/-- The upstream response of the tool-call completeness scenario:
`id="t1"`, `name="lookup"`, `input` the object with `"q"` mapped to `"x"`. -/
def sampleToolResponse : AnthropicFullResponse :=
  { content := some [{
      type := BlockType.tool_use
      id := some "t1"
      name := some "lookup"
      input := some (Json.obj [("q", Json.str "x")]) }] }

/-- A `message_stop` frame carrying input and output usage. -/
def stopUsageEvent : AnthropicStreamEvent :=
  { type := "message_stop",
    usage := some { input_tokens := some 2, output_tokens := some 3 } }

/-- The role-announcement chunk produced for `msgStartEvent` at `now = 0`. -/
def msgStartChunk : OpenAIStreamChunk :=
  { id := "chatcmpl-1"
    object := "chat.completion.chunk"
    created := 0
    model := "claude-3"
    choices := [{
      index := 0
      delta := { role := some "assistant", content := some "" }
      finish_reason := none }] }

/-- The stop-reason mapping table both translators implement (`end_turn` to
`stop`, `tool_use` to `tool_calls`, other non-empty values verbatim, absent
or empty to `null`). -/
def stopReasonTable : Option String → Option String
  | some v =>
      if v = "" then none
      else some (if v = "end_turn" then "stop"
        else if v = "tool_use" then "tool_calls" else v)
  | none => none

/-! ## Helper lemmas -/

theorem resolveDelta_append (b f : String) :
    (resolveDelta b f).2 = b ++ (resolveDelta b f).1 := by
  unfold resolveDelta
  split
  · next h =>
      apply String.ext
      simp only [String.data_append]
      exact (List.prefix_iff_eq_append.mp (List.isPrefixOf_iff_prefix.mp h.2)).symm
  · rfl

theorem mapGet_mapSet_self (m : List (Nat × ToolCallTracker)) (k : Nat)
    (v : ToolCallTracker) : mapGet (mapSet m k v) k = some v := by
  induction m with
  | nil => simp [mapSet, mapGet]
  | cons p rest ih =>
      obtain ⟨k2, v2⟩ := p
      by_cases h : k2 = k
      · simp [mapSet, mapGet, h]
      · simp [mapSet, mapGet, h, ih]

set_option linter.unnecessarySeqFocus false in
theorem transform_metrics_fields (st : ConverterState)
    (data : AnthropicStreamEvent) (now : Nat) :
    countersOf (transformToOpenAI st data now).2.metricsData =
      countersOf st.metricsData ∧
    (transformToOpenAI st data now).2.metricsData.model =
      st.metricsData.model := by
  unfold transformToOpenAI countersOf
  (repeat' split) <;> (try simp) <;> (repeat' split) <;> simp

theorem umMessageStart_tokens (m : MetricsData) (d : AnthropicStreamEvent) :
    (umMessageStart m d).input_tokens = m.input_tokens ∧
    (umMessageStart m d).output_tokens = m.output_tokens := by
  unfold umMessageStart
  (repeat' split) <;> simp

theorem umModel_tokens (m : MetricsData) (d : AnthropicStreamEvent) :
    (umModel m d).input_tokens = m.input_tokens ∧
    (umModel m d).output_tokens = m.output_tokens := by
  unfold umModel
  (repeat' split) <;> simp

theorem umStopReason_tokens (m : MetricsData) (d : AnthropicStreamEvent) :
    (umStopReason m d).input_tokens = m.input_tokens ∧
    (umStopReason m d).output_tokens = m.output_tokens := by
  unfold umStopReason
  (repeat' split) <;> simp

theorem umDeltaStopReason_tokens (m : MetricsData) (d : AnthropicStreamEvent) :
    (umDeltaStopReason m d).input_tokens = m.input_tokens ∧
    (umDeltaStopReason m d).output_tokens = m.output_tokens := by
  unfold umDeltaStopReason
  (repeat' split) <;> simp

theorem umMessageStopReason_tokens (m : MetricsData) (d : AnthropicStreamEvent) :
    (umMessageStopReason m d).input_tokens = m.input_tokens ∧
    (umMessageStopReason m d).output_tokens = m.output_tokens := by
  unfold umMessageStopReason
  (repeat' split) <;> simp

theorem umUsage_tokens (m : MetricsData) (d : AnthropicStreamEvent) :
    (umUsage m d).input_tokens = m.input_tokens +
        (match d.usage with | some u => u.input_tokens.getD 0 | none => 0) ∧
    (umUsage m d).output_tokens = m.output_tokens +
        (match d.usage with | some u => u.output_tokens.getD 0 | none => 0) := by
  unfold umUsage
  (repeat' split) <;> simp_all

theorem umMessageUsage_tokens (m : MetricsData) (d : AnthropicStreamEvent) :
    (umMessageUsage m d).input_tokens = m.input_tokens +
        (match d.message with
         | some msg =>
             match msg.usage with
             | some u => u.input_tokens.getD 0
             | none => 0
         | none => 0) ∧
    (umMessageUsage m d).output_tokens = m.output_tokens +
        (match d.message with
         | some msg =>
             match msg.usage with
             | some u => u.output_tokens.getD 0
             | none => 0
         | none => 0) := by
  unfold umMessageUsage
  (repeat' split) <;> simp_all

theorem updateMetrics_tokens (m : MetricsData) (ev : AnthropicStreamEvent) :
    (updateMetrics m ev).input_tokens =
        m.input_tokens + eventInputContribution ev ∧
    (updateMetrics m ev).output_tokens =
        m.output_tokens + eventOutputContribution ev := by
  unfold updateMetrics
  constructor
  · rw [(umMessageStopReason_tokens _ _).1, (umMessageUsage_tokens _ _).1,
      (umUsage_tokens _ _).1, (umDeltaStopReason_tokens _ _).1,
      (umStopReason_tokens _ _).1, (umModel_tokens _ _).1,
      (umMessageStart_tokens _ _).1, eventInputContribution]
    omega
  · rw [(umMessageStopReason_tokens _ _).2, (umMessageUsage_tokens _ _).2,
      (umUsage_tokens _ _).2, (umDeltaStopReason_tokens _ _).2,
      (umStopReason_tokens _ _).2, (umModel_tokens _ _).2,
      (umMessageStart_tokens _ _).2, eventOutputContribution]
    omega

/-! ## Claim theorems -/

/-- C1 (counterexample): a `ping` frame that carries usage counters is
dropped before `updateMetrics` runs — processing leaves the state (and so
the Exchange Metrics) unchanged, although absorbing the frame would have
added 5 input tokens.  The claim's inclusion of the explicitly ignored
kinds is therefore false. -/
theorem c1_ping_usage_not_absorbed :
    pingUsageEvent.usage =
      some { input_tokens := some 5, output_tokens := some 7 } ∧
    processEvent createConverterState pingUsageEvent 0 =
      ([], createConverterState) ∧
    (updateMetrics createConverterState.metricsData pingUsageEvent).input_tokens
      = 5 := by
  exact ⟨rfl, rfl, rfl⟩

/-- C1 (amended): every frame that is not of an explicitly ignored kind
(`ping`, `content_block_stop`, text-kind `content_block_start`) has the
Exchange Metrics updated — token counters added, stop reason recorded — as
a side effect before any emission; frames of the ignored kinds are dropped
whole, with no output and no state change, even when they carry usage or
stop-reason fields. -/
theorem c1_metrics_updated_before_emission :
    ∀ (st : ConverterState) (ev : AnthropicStreamEvent) (now : Nat),
      (ev.type ≠ "ping" → ev.type ≠ "content_block_stop" →
        ¬(ev.type = "content_block_start" ∧
            blockTypeIs ev.content_block BlockType.text = true) →
        countersOf (processEvent st ev now).2.metricsData =
          countersOf (updateMetrics st.metricsData ev)) ∧
      ((ev.type = "ping" ∨ ev.type = "content_block_stop" ∨
          (ev.type = "content_block_start" ∧
            blockTypeIs ev.content_block BlockType.text = true)) →
        processEvent st ev now = ([], st)) := by
  intro st ev now
  constructor
  · intro h1 h2 h3
    unfold processEvent
    rw [if_neg (not_or.mpr ⟨h1, h2⟩), if_neg h3]
    split
    · exact (transform_metrics_fields _ _ _).1
    · exact (transform_metrics_fields _ _ _).1
  · intro h
    unfold processEvent
    rcases h with h | h | h
    · rw [if_pos (Or.inl h)]
    · rw [if_pos (Or.inr h)]
    · rw [if_neg (by simp [h.1]), if_pos h]

/-- C1 witness: the amended theorem applied to a usage-and-stop-reason
bearing `message_delta` frame. -/
theorem c1_metrics_updated_before_emission_witness :
    countersOf
        (processEvent createConverterState msgDeltaUsageEvent 0).2.metricsData =
      countersOf
        (updateMetrics createConverterState.metricsData msgDeltaUsageEvent) :=
  (c1_metrics_updated_before_emission createConverterState msgDeltaUsageEvent 0).1
    (by decide) (by decide) (by decide)

/-- C4: across any sequence of frames absorbed by the Metrics Aggregator,
the final `input_tokens`/`output_tokens` equal the initial values plus the
sum, over every frame and including duplicates, of the usage field values
the frame carries (top-level and message-level); and a single absorption
never decreases either counter. -/
theorem c4_usage_additivity :
    (∀ (m : MetricsData) (evs : List AnthropicStreamEvent),
      (evs.foldl updateMetrics m).input_tokens =
          m.input_tokens + (evs.map eventInputContribution).sum ∧
      (evs.foldl updateMetrics m).output_tokens =
          m.output_tokens + (evs.map eventOutputContribution).sum) ∧
    (∀ (m : MetricsData) (ev : AnthropicStreamEvent),
      m.input_tokens ≤ (updateMetrics m ev).input_tokens ∧
      m.output_tokens ≤ (updateMetrics m ev).output_tokens) := by
  constructor
  · intro m evs
    induction evs generalizing m with
    | nil => simp
    | cons e rest ih =>
        simp only [List.foldl_cons, List.map_cons, List.sum_cons]
        have h := updateMetrics_tokens m e
        have h2 := ih (updateMetrics m e)
        constructor
        · rw [h2.1, h.1]; omega
        · rw [h2.2, h.2]; omega
  · intro m ev
    have h := updateMetrics_tokens m ev
    constructor
    · rw [h.1]; omega
    · rw [h.2]; omega

/-- C8: a `content_block_delta` frame carrying a tool-argument fragment
whose block index has no accumulator is silently skipped: no chunk is
emitted and the accumulator table is unchanged (the embedding is total, so
no error is possible). -/
theorem c8_unknown_index_silent_skip (st : ConverterState)
    (ev : AnthropicStreamEvent) (now : Nat)
    (hty : ev.type = "content_block_delta")
    (hpj : truthyStr (ev.delta.bind EventDelta.part_json) = true)
    (hmiss : mapGet st.toolCallsTracker (ev.index.getD 0) = none) :
    (processEvent st ev now).1 = [] ∧
    (processEvent st ev now).2.toolCallsTracker = st.toolCallsTracker := by
  rcases hd : ev.delta with _ | d
  · rw [hd] at hpj; simp [truthyStr] at hpj
  · rcases hp : d.part_json with _ | s
    · rw [hd] at hpj; simp [hp, truthyStr] at hpj
    · have hs : s ≠ "" := by
        rw [hd] at hpj; simp [hp, truthyStr] at hpj; exact hpj
      unfold processEvent transformToOpenAI
      simp only [hty, hd, hp]
      simp only [truthyStr, hs]
      simp [hmiss, hs]

/-- C8 witness: a fragment for index 3 fed to the empty initial state. -/
theorem c8_unknown_index_silent_skip_witness :
    (processEvent createConverterState (pjEvent 3 "x") 0).1 = [] ∧
    (processEvent createConverterState (pjEvent 3 "x") 0).2.toolCallsTracker =
      createConverterState.toolCallsTracker :=
  c8_unknown_index_silent_skip createConverterState (pjEvent 3 "x") 0 rfl
    (by decide) rfl

theorem string_append_empty (s : String) : s ++ "" = s := by
  apply String.ext; simp [String.data_append]

theorem string_empty_append (s : String) : "" ++ s = s := by
  apply String.ext; simp [String.data_append]

theorem string_append_assoc (a b c : String) : a ++ b ++ c = a ++ (b ++ c) := by
  apply String.ext; simp [String.data_append]

theorem processEvent_pj (st : ConverterState) (i : Nat) (f : String) (now : Nat)
    (tc : ToolCallTracker) (hf : f ≠ "")
    (h : mapGet st.toolCallsTracker i = some tc) :
    processEvent st (pjEvent i f) now =
      ([ProcessResult.chunk {
          id := strOrElse st.metricsData.openAIId ("chatcmpl-" ++ toString now)
          object := "chat.completion.chunk"
          created := now / 1000
          model := strDefault st.metricsData.model "claude-unknown"
          choices := [{
            index := 0
            delta := { tool_calls := some [{
              index := i
              function := some
                { arguments := some (resolveDelta tc.arguments f).1 } }] }
            finish_reason := none }] }],
       { st with
          toolCallsTracker :=
            mapSet st.toolCallsTracker i
              { tc with arguments := (resolveDelta tc.arguments f).2 } }) := by
  simp [processEvent, transformToOpenAI, pjEvent, truthyStr, hf, h,
    updateMetrics, umMessageStart, umModel, umStopReason, umDeltaStopReason,
    umUsage, umMessageUsage, umMessageStopReason]

set_option linter.unnecessarySeqFocus false in
theorem transform_single_choice (st : ConverterState)
    (data : AnthropicStreamEvent) (now : Nat) (c : OpenAIStreamChunk)
    (h : (transformToOpenAI st data now).1 = some c) :
    singleChoiceZero c.choices := by
  unfold transformToOpenAI at h
  (repeat' split at h) <;> (try simp only [] at h) <;>
    (try (repeat' split at h)) <;> cases h <;> simp [singleChoiceZero]

set_option linter.unnecessarySeqFocus false in
theorem usageChunk_single_choice (st : ConverterState) (now : Nat)
    (c : OpenAIStreamChunk) (h : createUsageChunk st now = some c) :
    singleChoiceZero c.choices := by
  unfold createUsageChunk at h
  split at h <;> cases h <;> simp [singleChoiceZero]

theorem streamFinish_eq (st : ConverterState) (now : Nat) (s : Option String) :
    chunkFinishReason (transformToOpenAI st (msgDeltaEvent s) now).1 =
      stopReasonTable s := by
  rcases s with _ | v
  · simp [transformToOpenAI, msgDeltaEvent, chunkFinishReason, stopReasonTable]
  · by_cases hv : v = "" <;>
      simp [transformToOpenAI, msgDeltaEvent, chunkFinishReason,
        stopReasonTable, hv]

theorem respFinish_eq (resp : AnthropicFullResponse) (now2 : Nat)
    (s : Option String) :
    responseFinishReason
        (convertNonStreamingResponse { resp with stop_reason := s } now2) =
      stopReasonTable s := by
  rcases s with _ | v
  · simp [convertNonStreamingResponse, responseFinishReason, stopReasonTable]
  · by_cases hv : v = "" <;>
    by_cases he : v = "end_turn" <;>
    by_cases ht : v = "tool_use" <;>
      simp_all [convertNonStreamingResponse, responseFinishReason,
        stopReasonTable]

theorem foldl_snapshotStep (blocks : List AnthropicContentBlock)
    (acc : String × List OpenAIToolCall) :
    blocks.foldl snapshotStep acc =
      (acc.1 ++ specTextConcat blocks, acc.2 ++ specToolCalls blocks) := by
  induction blocks generalizing acc with
  | nil =>
      simp [specTextConcat, specToolCalls, concatAll, string_append_empty]
  | cons b rest ih =>
      simp only [List.foldl_cons]
      rw [ih]
      by_cases ht : b.type = BlockType.text
      · simp [snapshotStep, specTextConcat, specToolCalls, ht,
          List.filter_cons, concatAll, string_append_assoc]
      · by_cases hc : b.type = BlockType.tool_use ∧ truthyStr b.id = true ∧
            truthyStr b.name = true
        · simp [snapshotStep, specTextConcat, specToolCalls, ht, hc,
            hc.1, hc.2.1, hc.2.2, List.filter_cons, concatAll,
            string_append_assoc]
        · have hb : ¬(b.type = BlockType.tool_use ∧ truthyStr b.id ∧
              truthyStr b.name) := by
            intro hx; exact hc ⟨hx.1, hx.2.1, hx.2.2⟩
          have hb2 : ¬((b.type = BlockType.tool_use ∧ truthyStr b.id = true) ∧
              truthyStr b.name = true) := by
            intro hx; exact hc ⟨hx.1.1, hx.1.2, hx.2⟩
          simp [snapshotStep, specTextConcat, specToolCalls, ht, hb, hb2,
            List.filter_cons, concatAll]

/-- C2: the delta resolution step of the tool-argument branch: with buffer
`b` and incoming fragment `f`, when `b` is non-empty and `f` starts with `b`
the emitted suffix is `f` with the `b`-length prefix removed and the buffer
becomes `f`; otherwise `f` is emitted unchanged and appended to the buffer.
Feeding fragments `"ab"`, `"cd"`, `"ef"` for one tool index emits suffixes
`"ab"`, `"cd"`, `"ef"` with final accumulated value `"abcdef"`. -/
theorem c2_delta_resolution :
    (∀ (st : ConverterState) (idx : Nat) (tc : ToolCallTracker) (f : String)
      (now : Nat), f ≠ "" →
      mapGet st.toolCallsTracker idx = some tc →
      emittedArgOf (transformToOpenAI st (pjEvent idx f) now).1 =
        some (if tc.arguments ≠ "" ∧ tc.arguments.data.isPrefixOf f.data then
          String.mk (f.data.drop tc.arguments.length) else f) ∧
      mapGet (transformToOpenAI st (pjEvent idx f) now).2.toolCallsTracker idx =
        some { tc with arguments :=
          if tc.arguments ≠ "" ∧ tc.arguments.data.isPrefixOf f.data then f
          else tc.arguments ++ f }) ∧
    toolArgEmissions
        (processEvents toolStartState
          [pjEvent 0 "ab", pjEvent 0 "cd", pjEvent 0 "ef"] 0).1 =
      ["ab", "cd", "ef"] ∧
    mapGet
        (processEvents toolStartState
          [pjEvent 0 "ab", pjEvent 0 "cd", pjEvent 0 "ef"] 0).2.toolCallsTracker
        0 =
      some { id := "t1", name := "lookup", arguments := "abcdef" } := by
  refine ⟨?_, by decide, by decide⟩
  intro st idx tc f now hf h
  have hmain :
      transformToOpenAI st (pjEvent idx f) now =
        (some {
          id := strOrElse st.metricsData.openAIId ("chatcmpl-" ++ toString now)
          object := "chat.completion.chunk"
          created := now / 1000
          model := strDefault st.metricsData.model "claude-unknown"
          choices := [{
            index := 0
            delta := { tool_calls := some [{
              index := idx
              function := some
                { arguments := some (resolveDelta tc.arguments f).1 } }] }
            finish_reason := none }] },
         { st with
            toolCallsTracker :=
              mapSet st.toolCallsTracker idx
                { tc with arguments := (resolveDelta tc.arguments f).2 } }) := by
    simp [transformToOpenAI, pjEvent, truthyStr, hf, h]
  rw [hmain]
  constructor
  · simp only [emittedArgOf, chunkArgSuffix]
    unfold resolveDelta
    split <;> rfl
  · rw [mapGet_mapSet_self]
    unfold resolveDelta
    split <;> rfl

/-- C2 witness: buffer `"ab"`, fragment `"abcd"` (cumulative-snapshot case). -/
theorem c2_delta_resolution_witness :
    emittedArgOf (transformToOpenAI bufferedState (pjEvent 0 "abcd") 0).1 =
      some "cd" ∧
    mapGet
        (transformToOpenAI bufferedState (pjEvent 0 "abcd") 0).2.toolCallsTracker
        0 =
      some { id := "t1", name := "lookup", arguments := "abcd" } := by
  have h := c2_delta_resolution.1 bufferedState 0
    { id := "t1", name := "lookup", arguments := "ab" } "abcd" 0
    (by decide) rfl
  refine ⟨?_, ?_⟩
  · rw [h.1]; decide
  · rw [h.2]; decide

/-- C3 (counterexample): a `message_stop` frame whose usage carries only
cache counters absorbs 5 cache tokens into the metrics, yet no usage chunk
is emitted — the claim's "at least one token of any usage counter, including
the cache counters" fails; only input/output counters gate the emission. -/
theorem c3_cache_only_no_usage_chunk :
    (processEvent createConverterState cacheOnlyStopEvent 0).1 =
      [ProcessResult.done] ∧
    (processEvent createConverterState cacheOnlyStopEvent 0).2.metricsData.cache_creation_input_tokens
      = 5 :=
  ⟨rfl, rfl⟩

/-- C3 (amended): on a `message_stop` frame the emitted results are exactly
the terminal signal, preceded by a usage chunk — populated only with
`prompt_tokens` = accumulated input tokens, `completion_tokens` =
accumulated output tokens and their sum — if and only if at least one input
or output token was counted (cache counters are excluded from the emission
condition); the terminal signal comes once, last. -/
theorem c3_message_stop_emission (st : ConverterState)
    (ev : AnthropicStreamEvent) (now : Nat)
    (hty : ev.type = "message_stop") :
    (processEvent st ev now).1 =
      (if (updateMetrics st.metricsData ev).input_tokens = 0 ∧
          (updateMetrics st.metricsData ev).output_tokens = 0 then
        [ProcessResult.done]
      else
        [ProcessResult.chunk {
          id := strOrElse (updateMetrics st.metricsData ev).openAIId
            ("chatcmpl-" ++ toString now)
          object := "chat.completion.chunk"
          created := now / 1000
          model := strDefault (updateMetrics st.metricsData ev).model
            "claude-unknown"
          choices := [{ index := 0, delta := {}, finish_reason := none }]
          usage := some {
            prompt_tokens := (updateMetrics st.metricsData ev).input_tokens
            completion_tokens := (updateMetrics st.metricsData ev).output_tokens
            total_tokens := (updateMetrics st.metricsData ev).input_tokens +
              (updateMetrics st.metricsData ev).output_tokens } },
         ProcessResult.done]) := by
  unfold processEvent transformToOpenAI createUsageChunk
  simp only [hty]
  simp only [show ("message_stop" = "ping") = False by simp,
    show ("message_stop" = "content_block_stop") = False by simp,
    show ("message_stop" = "content_block_start") = False by simp,
    show ("message_stop" = "content_block_delta") = False by simp,
    show ("message_stop" = "message_start") = False by simp,
    show ("message_stop" = "message_delta") = False by simp]
  simp
  by_cases hz : (updateMetrics st.metricsData ev).input_tokens = 0 ∧
      (updateMetrics st.metricsData ev).output_tokens = 0
  · simp [hz]
  · simp [hz]

/-- C3 witness: a `message_stop` frame carrying 2 input and 3 output
tokens. -/
theorem c3_message_stop_emission_witness :
    (processEvent createConverterState stopUsageEvent 0).1 =
      (if (updateMetrics createConverterState.metricsData stopUsageEvent).input_tokens = 0 ∧
          (updateMetrics createConverterState.metricsData stopUsageEvent).output_tokens = 0 then
        [ProcessResult.done]
      else
        [ProcessResult.chunk {
          id := strOrElse
            (updateMetrics createConverterState.metricsData stopUsageEvent).openAIId
            ("chatcmpl-" ++ toString 0)
          object := "chat.completion.chunk"
          created := 0 / 1000
          model := strDefault
            (updateMetrics createConverterState.metricsData stopUsageEvent).model
            "claude-unknown"
          choices := [{ index := 0, delta := {}, finish_reason := none }]
          usage := some {
            prompt_tokens :=
              (updateMetrics createConverterState.metricsData stopUsageEvent).input_tokens
            completion_tokens :=
              (updateMetrics createConverterState.metricsData stopUsageEvent).output_tokens
            total_tokens :=
              (updateMetrics createConverterState.metricsData stopUsageEvent).input_tokens +
              (updateMetrics createConverterState.metricsData stopUsageEvent).output_tokens } },
         ProcessResult.done]) :=
  c3_message_stop_emission createConverterState stopUsageEvent 0 rfl

/-- C5: the streaming translator's finish_reason mapping (on a
`message_delta` carrying a stop reason) and the snapshot translator's
mapping agree on every stop-reason value; both send `end_turn` to `stop`,
`tool_use` to `tool_calls`, any other carried (non-empty) literal through
verbatim, and null/absent stays null. -/
theorem c5_stop_reason_mappings_agree :
    ∀ (st : ConverterState) (now now2 : Nat) (resp : AnthropicFullResponse)
      (s : Option String),
      chunkFinishReason (transformToOpenAI st (msgDeltaEvent s) now).1 =
        responseFinishReason
          (convertNonStreamingResponse { resp with stop_reason := s } now2) ∧
      (s = some "end_turn" →
        chunkFinishReason (transformToOpenAI st (msgDeltaEvent s) now).1 =
          some "stop") ∧
      (s = some "tool_use" →
        chunkFinishReason (transformToOpenAI st (msgDeltaEvent s) now).1 =
          some "tool_calls") ∧
      (∀ v, s = some v → v ≠ "" → v ≠ "end_turn" → v ≠ "tool_use" →
        chunkFinishReason (transformToOpenAI st (msgDeltaEvent s) now).1 =
          some v) ∧
      (s = none →
        chunkFinishReason (transformToOpenAI st (msgDeltaEvent s) now).1 =
          none) := by
  intro st now now2 resp s
  refine ⟨?_, ?_, ?_, ?_, ?_⟩
  · rw [streamFinish_eq, respFinish_eq]
  · rintro rfl; simp [streamFinish_eq, stopReasonTable]
  · rintro rfl; simp [streamFinish_eq, stopReasonTable]
  · rintro v rfl hv he ht
    rw [streamFinish_eq]
    simp [stopReasonTable, hv, he, ht]
  · rintro rfl; simp [streamFinish_eq, stopReasonTable]

/-- C5 witness: the two mappings on `end_turn`. -/
theorem c5_stop_reason_mappings_agree_witness :
    chunkFinishReason (transformToOpenAI createConverterState
        (msgDeltaEvent (some "end_turn")) 0).1 =
      responseFinishReason (convertNonStreamingResponse
        { ({} : AnthropicFullResponse) with stop_reason := some "end_turn" } 0) ∧
    chunkFinishReason (transformToOpenAI createConverterState
        (msgDeltaEvent (some "end_turn")) 0).1 = some "stop" :=
  ⟨(c5_stop_reason_mappings_agree createConverterState 0 0 {}
      (some "end_turn")).1,
   (c5_stop_reason_mappings_agree createConverterState 0 0 {}
      (some "end_turn")).2.1 rfl⟩

/-- C6 (counterexample): an upstream response containing one text-kind block
whose text is the empty string still yields `content = null` — the code
tests emptiness of the concatenation, not the presence of a text block, so
"null exactly when no text-kind block is present" fails. -/
theorem c6_empty_text_block_content_null :
    responseContent (convertNonStreamingResponse emptyTextResponse 0) = none ∧
    emptyTextResponse.content =
      some [{ type := BlockType.text, text := some "" }] :=
  ⟨rfl, rfl⟩

/-- C6 (amended): the snapshot translation sets the message content to the
concatenation, in array order, of the text of all text-kind blocks, and
sets content to null exactly when that concatenation is empty (in
particular when no text-kind block is present). -/
theorem c6_content_concatenation (resp : AnthropicFullResponse) (now : Nat) :
    responseContent (convertNonStreamingResponse resp now) =
      (if specTextConcat (resp.content.getD []) = "" then none
       else some (specTextConcat (resp.content.getD []))) := by
  unfold convertNonStreamingResponse responseContent
  simp only [foldl_snapshotStep, string_empty_append]
  by_cases hz : specTextConcat (resp.content.getD []) = "" <;> simp [hz]

/-- C7 (counterexample): a tool_use block whose `id` is present but the
empty string is skipped — the code requires JS-truthy (non-empty) `id` and
`name`, not mere presence. -/
theorem c7_empty_id_tool_block_skipped :
    responseToolCalls (convertNonStreamingResponse emptyIdToolResponse 0) =
      [] ∧
    emptyIdToolResponse.content = some [{
      type := BlockType.tool_use
      id := some ""
      name := some "lookup"
      input := some (Json.obj [("q", Json.str "x")]) }] :=
  ⟨rfl, rfl⟩

/-- C7 (amended): the snapshot translation collects exactly the
tool_use-kind blocks whose `id` and `name` are present and non-empty, in
array order, each with matching id and name, type `function`, and arguments
the JSON serialization of the block input; the response with one tool block
`t1`/`lookup`/`{"q":"x"}` yields exactly that one tool call. -/
theorem c7_tool_call_collection :
    (∀ (resp : AnthropicFullResponse) (now : Nat),
      responseToolCalls (convertNonStreamingResponse resp now) =
        specToolCalls (resp.content.getD [])) ∧
    responseToolCalls (convertNonStreamingResponse sampleToolResponse 0) =
      [{
        id := "t1"
        type := "function"
        function := { name := "lookup", arguments := "\x7b\"q\":\"x\"\x7d" } }] := by
  constructor
  · intro resp now
    unfold convertNonStreamingResponse responseToolCalls
    simp only [foldl_snapshotStep]
    simp
  · rfl

/-- C9: for any sequence of non-empty tool-argument fragments fed to an
existing accumulator, the accumulator's stored arguments string always
equals its starting contents followed by the concatenation, in emission
order, of every tool-argument suffix emitted to the client — the invariant
the cumulative-snapshot and independent-fragment branches both preserve. -/
theorem c9_accumulator_matches_emissions :
    ∀ (fs : List String) (st : ConverterState) (i : Nat) (tc : ToolCallTracker)
      (now : Nat),
      (∀ f ∈ fs, f ≠ "") →
      mapGet st.toolCallsTracker i = some tc →
      mapGet (processEvents st (fs.map (pjEvent i)) now).2.toolCallsTracker i =
        some { tc with arguments := (tc.arguments ++
          concatAll (toolArgEmissions
            (processEvents st (fs.map (pjEvent i)) now).1)) } := by
  intro fs
  induction fs with
  | nil =>
      intro st i tc now hfs h
      simp only [List.map_nil, processEvents, toolArgEmissions, concatAll]
      rw [string_append_empty]
      exact h
  | cons f rest ih =>
      intro st i tc now hfs h
      have hf : f ≠ "" := hfs f (by simp)
      rw [List.map_cons]
      simp only [processEvents]
      rw [processEvent_pj st i f now tc hf h]
      simp only [List.cons_append, List.nil_append, toolArgEmissions,
        chunkArgSuffix, concatAll]
      have h2 := mapGet_mapSet_self st.toolCallsTracker i
        { tc with arguments := (resolveDelta tc.arguments f).2 }
      have hih := ih
        { st with
          toolCallsTracker :=
            mapSet st.toolCallsTracker i
              { tc with arguments := (resolveDelta tc.arguments f).2 } }
        i { tc with arguments := (resolveDelta tc.arguments f).2 } now
        (fun g hg => hfs g (List.mem_cons_of_mem f hg)) h2
      rw [hih]
      have ha := resolveDelta_append tc.arguments f
      simp only [ha]
      simp [string_append_assoc]

/-- C9 witness: fragments `"ab"`, `"cd"` fed to a fresh accumulator. -/
theorem c9_accumulator_matches_emissions_witness :
    mapGet
        (processEvents toolStartState
          (["ab", "cd"].map (pjEvent 0)) 0).2.toolCallsTracker 0 =
      some { id := "t1", name := "lookup", arguments := ("" ++
        concatAll (toolArgEmissions
          (processEvents toolStartState (["ab", "cd"].map (pjEvent 0)) 0).1)) } :=
  c9_accumulator_matches_emissions ["ab", "cd"] toolStartState 0
    { id := "t1", name := "lookup", arguments := "" } 0 (by decide) rfl

/-- C10: every chunk emitted by the streaming translator and every
non-streaming client response has a choices array of exactly one element,
whose index is 0. -/
theorem c10_single_choice_index_zero :
    (∀ (st : ConverterState) (ev : AnthropicStreamEvent) (now : Nat)
      (res : ProcessResult) (c : OpenAIStreamChunk),
      res ∈ (processEvent st ev now).1 → res = ProcessResult.chunk c →
      singleChoiceZero c.choices) ∧
    (∀ (resp : AnthropicFullResponse) (now : Nat),
      (convertNonStreamingResponse resp now).choices.length = 1 ∧
      ∀ ch ∈ (convertNonStreamingResponse resp now).choices, ch.index = 0) := by
  constructor
  · intro st ev now res c hres hc
    subst hc
    simp only [processEvent] at hres
    split at hres
    · simp at hres
    · split at hres
      · simp at hres
      · split at hres
        · rcases htr : (transformToOpenAI
              { st with metricsData := updateMetrics st.metricsData ev } ev now).1
            with _ | c2 <;>
          rcases hu : createUsageChunk (transformToOpenAI
              { st with metricsData := updateMetrics st.metricsData ev } ev
                now).2 now
            with _ | u <;>
          rw [htr, hu] at hres <;> simp at hres
          · subst hres
            exact usageChunk_single_choice _ _ _ hu
          · subst hres
            exact transform_single_choice _ _ _ _ htr
          · rcases hres with rfl | rfl
            · exact transform_single_choice _ _ _ _ htr
            · exact usageChunk_single_choice _ _ _ hu
        · rcases htr : (transformToOpenAI
              { st with metricsData := updateMetrics st.metricsData ev } ev now).1
            with _ | c2 <;> rw [htr] at hres <;> simp at hres
          subst hres
          exact transform_single_choice _ _ _ _ htr
  · intro resp now
    constructor
    · simp [convertNonStreamingResponse]
    · intro ch hch
      simp [convertNonStreamingResponse] at hch
      simp [hch]

/-- C10 witness: the role-announcement chunk of a `message_start` frame. -/
theorem c10_single_choice_index_zero_witness :
    ProcessResult.chunk msgStartChunk ∈
      (processEvent createConverterState msgStartEvent 0).1 ∧
    singleChoiceZero msgStartChunk.choices :=
  ⟨by decide,
   c10_single_choice_index_zero.1 createConverterState msgStartEvent 0
     (ProcessResult.chunk msgStartChunk) msgStartChunk (by decide) rfl⟩
